import Mathlib

/-!
Verification of the miniMXE LLC energy/ED²P estimation engine
(`scripts/energy_ed2p_v3.py` and `scripts/energy_ed2p_v4.py`).

Modelling conventions:
* Python `int` is modelled by `ℤ` (counts read from the statistics store are
  non-negative integers per the store contract, modelled by `ℕ` fields).
* Python `float` arithmetic is modelled exactly over `ℚ`; the float literal
  `1e-9` is modelled as the rational `1/10^9`.
* A Python `float('nan')` value (an unknown quantity) is modelled as `none`
  of an `Option ℚ`; a known value `x` is `some x`.  The Python idiom
  `T if T == T else 0.0` (replace NaN by 0) becomes `T.getD 0`.
* Python's builtin `round` (banker's rounding, half to even) is modelled by
  `pyRound` below.
* A value that may be absent (`None` in Python) is an `Option`.
-/

namespace MiniMXE

/-- Python's `round` on an exact rational: round half to even. -/
def pyRound (q : ℚ) : ℤ :=
  if q - ⌊q⌋ < 1/2 then ⌊q⌋
  else if q - ⌊q⌋ > 1/2 then ⌊q⌋ + 1
  else if ⌊q⌋ % 2 = 0 then ⌊q⌋ else ⌊q⌋ + 1

/-- Per-technology LLC energy constants (`dict(E_hit_nJ=…, …)` in the source). -/
structure EnergyConsts where
  E_hit_nJ : ℚ
  E_miss_nJ : ℚ
  E_write_nJ : ℚ
  P_leak_W : ℚ
deriving DecidableEq, Repr

/-- `SRAM_DEFAULT = dict(E_hit_nJ=0.565, E_miss_nJ=0.011, E_write_nJ=0.537, P_leak_W=3.438)` -/
def SRAM_DEFAULT : EnergyConsts :=
  ⟨(565 : ℚ)/1000, (11 : ℚ)/1000, (537 : ℚ)/1000, (3438 : ℚ)/1000⟩

/-- `JANS_DEFAULT = dict(E_hit_nJ=0.188, E_miss_nJ=0.077, E_write_nJ=2.305, P_leak_W=0.048)` -/
def JANS_DEFAULT : EnergyConsts :=
  ⟨(188 : ℚ)/1000, (77 : ℚ)/1000, (2305 : ℚ)/1000, (48 : ℚ)/1000⟩

/-- The exact event counts returned by `read_llc_exact_from_db` (the fields the
energy path consumes).  Per the store contract all counts are non-negative. -/
structure DbCounts where
  A_db : ℕ
  M_db : ℕ
  RH : ℕ
  WH : ℕ
  coh_upgrades : ℕ
deriving DecidableEq, Repr

/-- The read share of the residual gap, `int(round(rem * r))` with
`r = RHc/denom` when `counted > 0` and `0.5` otherwise (v3 lines 578–581). -/
def propSplit (RHc counted rem : ℤ) : ℤ :=
  pyRound ((rem : ℚ) * (if 0 < counted then (RHc : ℚ) / (counted : ℚ) else 1/2))

/-- `reconcile_hits_for_energy(db)` from `energy_ed2p_v3.py` (lines 558–583).
Returns `(RH_use, WH_use, gap)`.  `none` models a missing/falsy `db`. -/
def reconcile_hits_for_energy : Option DbCounts → ℤ × ℤ × ℤ
  | none => (0, 0, 0)
  | some db =>
    let H_tot : ℤ := max ((db.A_db : ℤ) - (db.M_db : ℤ)) 0
    let RHc : ℤ := db.RH
    let WHc : ℤ := db.WH
    let counted : ℤ := RHc + WHc
    let gap : ℤ := H_tot - counted
    if gap ≤ 0 then (RHc, WHc, 0)
    else
      let add_w : ℤ := min gap (db.coh_upgrades : ℤ)
      let WH1 : ℤ := WHc + add_w
      let rem : ℤ := gap - add_w
      if 0 < rem then
        let RH_use : ℤ := RHc + propSplit RHc counted rem
        (RH_use, H_tot - RH_use, gap)
      else (RHc, WH1, gap)

/-- Modelled from the spec (§4.4, for the refinement claim about the gap
allocation policy): `gap = total_hits − counted`; first allocate
`min(gap, coherency_upgrade_count)` to write-hits; split the remaining gap by
the read:total ratio (50/50 when `counted = 0`) with write-hits receiving the
remainder so the invariant holds by construction. -/
def reconcileSpecPolicy (db : DbCounts) : ℤ × ℤ × ℤ :=
  let total : ℤ := max ((db.A_db : ℤ) - (db.M_db : ℤ)) 0
  let counted : ℤ := (db.RH : ℤ) + (db.WH : ℤ)
  let gap : ℤ := total - counted
  let add_w : ℤ := min gap (db.coh_upgrades : ℤ)
  let rem : ℤ := gap - add_w
  if rem = 0 then ((db.RH : ℤ), (db.WH : ℤ) + add_w, gap)
  else
    let ratio : ℚ := if counted = 0 then 1/2 else (db.RH : ℚ) / (counted : ℚ)
    let rh : ℤ := (db.RH : ℤ) + pyRound ((rem : ℚ) * ratio)
    (rh, total - rh, gap)

/-- `energy_bounds(E_hit_nJ, E_miss_nJ, E_write_nJ, P_leak_W, T_s, acc, mis)`
(identical in v3 lines 538–543 and v4 lines 206–213).
Returns `((E_lo, E_hi), (dyn_lo_nJ, dyn_hi_nJ), eleak_J)` in source order:
the first component is *not* sorted here. -/
def energy_bounds (c : EnergyConsts) (T_s : Option ℚ) (acc mis : ℤ) :
    (ℚ × ℚ) × (ℚ × ℚ) × ℚ :=
  let hits : ℤ := max (acc - mis) 0
  let dyn_lo_nJ : ℚ := c.E_hit_nJ * hits + c.E_miss_nJ * mis
  let dyn_hi_nJ : ℚ := c.E_write_nJ * hits + c.E_miss_nJ * mis
  let eleak_J : ℚ := c.P_leak_W * (T_s.getD 0)
  ((dyn_lo_nJ * (1/10^9) + eleak_J, dyn_hi_nJ * (1/10^9) + eleak_J),
   (dyn_lo_nJ, dyn_hi_nJ), eleak_J)

/-- The total-energy pair v4's `energy_row` actually writes into the row
(v4 lines 341–342): the unsorted `E_lo, E_hi` parameters.  The local
`Elo, Ehi = sorted((E_lo, E_hi))` assigned at v4 line 333 is never used. -/
def reportedBounds_v4 (c : EnergyConsts) (T_s : Option ℚ) (acc mis : ℤ) : ℚ × ℚ :=
  (energy_bounds c T_s acc mis).1

/-- The dead local `Elo, Ehi = sorted((E_lo, E_hi))` computed (and then
discarded) by v4's `energy_row` at line 333 and by `pretty` at line 409. -/
def sorted_Elo_Ehi_v4 (c : EnergyConsts) (T_s : Option ℚ) (acc mis : ℤ) : ℚ × ℚ :=
  let p := (energy_bounds c T_s acc mis).1
  (min p.1 p.2, max p.1 p.2)

/-- v3's `row_for` reports the total-energy pair exactly as returned by
`energy_bounds`, without sorting (v3 lines 726, 737). -/
def reportedBounds_v3 (c : EnergyConsts) (T_s : Option ℚ) (acc mis : ℤ) : ℚ × ℚ :=
  (energy_bounds c T_s acc mis).1

/-- `energy_exact_from_counts` (identical in v3 lines 545–548 and v4 lines
215–218).  Returns `(dyn_nJ, E)`. -/
def energy_exact_from_counts (c : EnergyConsts) (T_s : Option ℚ)
    (RH WH M : ℤ) : ℚ × ℚ :=
  let dyn_nJ : ℚ := c.E_hit_nJ * RH + c.E_write_nJ * WH + c.E_miss_nJ * M
  (dyn_nJ, dyn_nJ * (1/10^9) + c.P_leak_W * (T_s.getD 0))

/-- `ed2p(E_J, T_s)` (v3 lines 550–553, v4 lines 220–223): NaN if either
operand is NaN, else `E_J * T_s**2`. -/
def ed2p : Option ℚ → Option ℚ → Option ℚ
  | some E, some T => some (E * T ^ 2)
  | _, _ => none

/-- `to_int_or_zero(s)` (v4 lines 106–110, v3 lines 126–130): a missing or
unparseable value becomes `0`, a parsed integer is returned as-is.  The input
is modelled as the already-parsed optional integer. -/
def to_int_or_zero : Option ℤ → ℤ
  | none => 0
  | some v => v

/-- The values a constants file defines for the four required keys
`perf_model/l3_cache/llc/{e_read_hit_pJ, e_write_hit_pJ, e_miss_pJ, p_leak_mW}`
(absent key = `none`). -/
structure FileVals where
  e_read_hit_pJ : Option ℚ
  e_write_hit_pJ : Option ℚ
  e_miss_pJ : Option ℚ
  p_leak_mW : Option ℚ
deriving DecidableEq, Repr

/-- `_scan_text` inside `parse_llc_energy_consts` (v3 lines 490–507): succeed
only if all four keys are present, each converted by the fixed factor 1000
(pJ → nJ, mW → W); return `None` if any one is missing. -/
def scanText (f : FileVals) : Option EnergyConsts :=
  match f.e_read_hit_pJ, f.e_write_hit_pJ, f.e_miss_pJ, f.p_leak_mW with
  | some rh, some wh, some ms, some lk =>
      some ⟨rh / 1000, ms / 1000, wh / 1000, lk / 1000⟩
  | _, _, _, _ => none

/-- A run directory as seen by the constants resolver: the three candidate
files, each absent (`none`) or present with the key/values it defines. -/
structure RunDir where
  cfg : Option FileVals
  info : Option FileVals
  inf : Option FileVals
deriving DecidableEq, Repr

/-- `parse_llc_energy_consts(run_dir)` (v3 lines 481–536): try `sim.cfg`, then
`sim.info`, then `sim.inf`, first complete set wins; else `None`.  An absent
or unreadable file behaves like a file with no matching keys. -/
def parse_llc_energy_consts (r : RunDir) : Option EnergyConsts :=
  match r.cfg.bind scanText with
  | some v => some v
  | none =>
    match r.info.bind scanText with
    | some v => some v
    | none => r.inf.bind scanText

/-- `parse_llc_energy_consts(dir) or DEFAULT` (v3 lines 656–658). -/
def resolve_consts (r : RunDir) (default : EnergyConsts) : EnergyConsts :=
  (parse_llc_energy_consts r).getD default

/-- The effective hit-cycle configuration parsed from `sim.cfg`
(`rd_llc`/`wr_llc` from the llc section, `rd_next`/`wr_next` from the
`llc.next_read` section), v3 lines 330–384. -/
structure HitCycleCfg where
  rd_llc : Option ℤ
  wr_llc : Option ℤ
  rd_next : Option ℤ
  wr_next : Option ℤ
deriving DecidableEq, Repr

/-- The local vs. all-slices ROI hit counts used to weight the two cycle
costs (v3 lines 439–442). -/
structure HitMixDb where
  RH_local : ℕ
  RH_all : ℕ
  WH_local : ℕ
  WH_all : ℕ
deriving DecidableEq, Repr

/-- The decision part of `parse_llc_hit_cycles(run_dir)` (v3 lines 386–455),
after the config and store reads: if neither section is complete, no cycles;
if exactly one of the llc / next_read sections is complete, use it uniformly;
if both are complete, weight each cost by the ROI local/remote hit mix from
the store (`none` = store absent, in which case the llc costs are used). -/
def parse_llc_hit_cycles (c : HitCycleCfg) (db : Option HitMixDb) :
    Option ℤ × Option ℤ :=
  match c.rd_llc, c.wr_llc, c.rd_next, c.wr_next with
  | some rl, some wl, some rn, some wn =>
    match db with
    | none => (some rl, some wl)
    | some m =>
      let RH_remote : ℤ := max ((m.RH_all : ℤ) - (m.RH_local : ℤ)) 0
      let WH_remote : ℤ := max ((m.WH_all : ℤ) - (m.WH_local : ℤ)) 0
      let rd_total : ℤ := (m.RH_local : ℤ) + RH_remote
      let wr_total : ℤ := (m.WH_local : ℤ) + WH_remote
      let rd_eff : ℤ :=
        if rd_total = 0 then rl
        else pyRound (((m.RH_local : ℚ) * rl + (RH_remote : ℚ) * rn) / (rd_total : ℚ))
      let wr_eff : ℤ :=
        if wr_total = 0 then wl
        else pyRound (((m.WH_local : ℚ) * wl + (WH_remote : ℚ) * wn) / (wr_total : ℚ))
      (some rd_eff, some wr_eff)
  | some rl, some wl, _, _ => (some rl, some wl)
  | _, _, some rn, some wn => (some rn, some wn)
  | _, _, _, _ => (none, none)

/-- `period_ns_from_parsed(parsed)` (v3 lines 470–476): `time_ns / cycles`
when the cycle count is positive, else `None`; an absent field counts as 0. -/
def period_ns_from_parsed (cycles time_ns : Option ℕ) : Option ℚ :=
  let cyc := cycles.getD 0
  let tns := time_ns.getD 0
  if 0 < cyc then some ((tns : ℚ) / (cyc : ℚ)) else none

/-- `avg_l3_hit_ns(rd_cyc, wr_cyc, RH, WH, period_ns)` (v3 lines 457–468).
Note the guard `not rd_cyc or not wr_cyc` is Python falsiness: a `None` *or a
zero* cycle cost yields `None`. -/
def avg_l3_hit_ns (rd_cyc wr_cyc : Option ℤ) (RH WH : ℤ)
    (period_ns : Option ℚ) : Option ℚ :=
  match rd_cyc, wr_cyc, period_ns with
  | some rd, some wr, some p =>
    if rd = 0 ∨ wr = 0 ∨ RH + WH ≤ 0 ∨ p ≤ 0 then none
    else some ((((RH * rd + WH * wr : ℤ) : ℚ) * p) / ((RH + WH : ℤ) : ℚ))
  | _, _, _ => none

/-- `note_for(d)` from v4 (lines 298–302): `"sqlite_missing"` when the store
is absent, `"ok"` when the counts agree, else a warning naming the diff. -/
def note_for : Option DbCounts → String
  | none => "sqlite_missing"
  | some d =>
    let diff : ℤ := ((d.A_db : ℤ) - (d.M_db : ℤ)) - ((d.RH : ℤ) + (d.WH : ℤ))
    if diff = 0 then "ok" else "warn_A-M!=RH+WH(diff=" ++ toString diff ++ ")"

/-- The per-technology output record assembled by v4's `main`/`energy_row`
(the pure fields the claims are about). -/
structure EnergyRecord where
  note : String
  exact_src : String
  dyn_exact_nJ : Option ℚ
  energy_exact_J : Option ℚ
  ed2p_exact : Option ℚ
  energy_low_J : ℚ
  energy_high_J : ℚ
  dyn_low_nJ : ℚ
  dyn_high_nJ : ℚ
  leak_J : ℚ
deriving DecidableEq, Repr

/-- The pure per-run record computation of v4's `main` (lines 291–349): bounds
from the coarse text counts, exact fields only when the store is present
(`exact_source = "sqlite"`, else the empty string).  `energy_row` writes the
total-energy pair unsorted (its sorted locals at line 333 are dead code). -/
def mkEnergyRecord_v4 (c : EnergyConsts) (T_s : Option ℚ) (A_txt M_txt : ℤ)
    (db : Option DbCounts) : EnergyRecord :=
  let b := energy_bounds c T_s A_txt M_txt
  let rep := b.1
  match db with
  | none =>
      { note := note_for none, exact_src := "",
        dyn_exact_nJ := none, energy_exact_J := none, ed2p_exact := none,
        energy_low_J := rep.1, energy_high_J := rep.2,
        dyn_low_nJ := b.2.1.1, dyn_high_nJ := b.2.1.2, leak_J := b.2.2 }
  | some d =>
      let e := energy_exact_from_counts c T_s (d.RH : ℤ) (d.WH : ℤ) (d.M_db : ℤ)
      { note := note_for (some d), exact_src := "sqlite",
        dyn_exact_nJ := some e.1, energy_exact_J := some e.2,
        ed2p_exact := ed2p (some e.2) T_s,
        energy_low_J := rep.1, energy_high_J := rep.2,
        dyn_low_nJ := b.2.1.1, dyn_high_nJ := b.2.1.2, leak_J := b.2.2 }

/-! ### Helper lemmas about `pyRound` -/

theorem le_pyRound (q : ℚ) : ⌊q⌋ ≤ pyRound q := by
  unfold pyRound
  split
  · exact le_refl _
  · split
    · omega
    · split <;> omega

theorem pyRound_le_floor_add_one (q : ℚ) : pyRound q ≤ ⌊q⌋ + 1 := by
  unfold pyRound
  split
  · omega
  · split
    · omega
    · split <;> omega

theorem pyRound_nonneg {q : ℚ} (h : 0 ≤ q) : 0 ≤ pyRound q :=
  le_trans (Int.floor_nonneg.mpr h) (le_pyRound q)

theorem pyRound_le_of_le {q : ℚ} {n : ℤ} (h : q ≤ (n : ℚ)) : pyRound q ≤ n := by
  have hf : ⌊q⌋ ≤ n := by
    have h1 : ⌊q⌋ ≤ ⌊(n : ℚ)⌋ := Int.floor_le_floor h
    simpa using h1
  have hstep : (1 : ℚ)/2 ≤ q - ⌊q⌋ → ⌊q⌋ < n := by
    intro hge
    have h2 : (⌊q⌋ : ℚ) < q := by linarith
    have h3 : (⌊q⌋ : ℚ) < (n : ℚ) := lt_of_lt_of_le h2 h
    exact_mod_cast h3
  unfold pyRound
  split
  · exact hf
  · next h1 =>
    have hge : (1 : ℚ)/2 ≤ q - ⌊q⌋ := not_lt.mp h1
    have := hstep hge
    split
    · omega
    · split <;> omega

theorem propSplit_nonneg {RHc counted rem : ℤ} (hR : 0 ≤ RHc) (hrem : 0 ≤ rem) :
    0 ≤ propSplit RHc counted rem := by
  apply pyRound_nonneg
  apply mul_nonneg (by exact_mod_cast hrem)
  split
  · apply div_nonneg (by exact_mod_cast hR)
    next hc => exact_mod_cast le_of_lt hc
  · norm_num

theorem propSplit_le {RHc counted rem : ℤ} (hRc : RHc ≤ counted)
    (hrem : 0 ≤ rem) : propSplit RHc counted rem ≤ rem := by
  apply pyRound_le_of_le
  have h1 : (if 0 < counted then (RHc : ℚ) / (counted : ℚ) else 1/2) ≤ 1 := by
    split
    · next hc =>
      rw [div_le_one (by exact_mod_cast hc)]
      exact_mod_cast hRc
    · norm_num
  have h0 : (0 : ℚ) ≤ (rem : ℚ) := by exact_mod_cast hrem
  calc (rem : ℚ) * _ ≤ (rem : ℚ) * 1 := by
        exact mul_le_mul_of_nonneg_left h1 h0
    _ = (rem : ℚ) := mul_one _

/-! ### Claim C1 (corrected) -/

/-- C1 counterexample: for `accesses = 10`, `misses = 0`, `read_hits = 8`,
`write_hits = 8` (so `counted = 16 > total_hits = 10`), the reconciler
returns the raw counts unchanged — nothing is clamped — and the sum `16`
does not equal `max(accesses − misses, 0) = 10`. -/
theorem C1_cex :
    reconcile_hits_for_energy (some ⟨10, 0, 8, 8, 0⟩) = (8, 8, 0) ∧
    ¬ ((reconcile_hits_for_energy (some ⟨10, 0, 8, 8, 0⟩)).1 +
        (reconcile_hits_for_energy (some ⟨10, 0, 8, 8, 0⟩)).2.1
          = max ((10 : ℤ) - 0) 0) := by
  constructor
  · rfl
  · decide

/-- C1 (amended): whenever the raw classified hits do not exceed the total
(`read_hits + write_hits ≤ max(accesses − misses, 0)`), the reconciled counts
satisfy `RH_use + WH_use = max(accesses − misses, 0)` exactly; when the raw
hits exceed the total they are returned unchanged, so the equality can fail
there (see the counterexample). -/
theorem C1_reconcile_invariant (db : DbCounts)
    (h : (db.RH : ℤ) + (db.WH : ℤ) ≤ max ((db.A_db : ℤ) - (db.M_db : ℤ)) 0) :
    (reconcile_hits_for_energy (some db)).1 +
      (reconcile_hits_for_energy (some db)).2.1
        = max ((db.A_db : ℤ) - (db.M_db : ℤ)) 0 := by
  rcases db with ⟨A, M, RH, WH, coh⟩
  simp only [reconcile_hits_for_energy] at *
  split_ifs with h1 h2
  · dsimp only
    omega
  · dsimp only
    ring
  · dsimp only
    omega

/-- C1 witness: Scenario A's counts satisfy the hypothesis and the invariant. -/
theorem C1_witness :
    (reconcile_hits_for_energy (some ⟨1000, 100, 700, 150, 50⟩)).1 +
      (reconcile_hits_for_energy (some ⟨1000, 100, 700, 150, 50⟩)).2.1
        = max ((1000 : ℤ) - 100) 0 :=
  C1_reconcile_invariant ⟨1000, 100, 700, 150, 50⟩ (by decide)

/-! ### Claim C2 (confirmed) -/

/-- C2: whenever the classified hits fall short of the total
(`counted < total_hits`), the reconciler implements exactly the spec's
allocation policy (gap reported as `total_hits − counted`; up to
`coherency_upgrade_count` of the gap goes to write-hits; the remainder is
split by the read:total ratio, 50/50 when `counted = 0`, write-hits taking
the rest), and on Scenario A (accesses=1000, misses=100, read_hits=700,
write_hits=150, coherency_upgrades=50) it returns read_hits=700,
write_hits=200, gap=50. -/
theorem C2_gap_allocation :
    (∀ db : DbCounts,
        (db.RH : ℤ) + (db.WH : ℤ) < max ((db.A_db : ℤ) - (db.M_db : ℤ)) 0 →
          reconcile_hits_for_energy (some db) = reconcileSpecPolicy db ∧
          (reconcile_hits_for_energy (some db)).2.2
            = max ((db.A_db : ℤ) - (db.M_db : ℤ)) 0 - ((db.RH : ℤ) + (db.WH : ℤ))) ∧
    reconcile_hits_for_energy (some ⟨1000, 100, 700, 150, 50⟩) = (700, 200, 50) := by
  constructor
  · intro db h
    rcases db with ⟨A, M, RH, WH, coh⟩
    constructor
    · simp only [reconcile_hits_for_energy, reconcileSpecPolicy, propSplit] at *
      split_ifs <;> first | rfl | omega
    · simp only [reconcile_hits_for_energy] at *
      split_ifs <;> (dsimp only; all_goals omega)
  · rfl

/-- C2 witness: the general part of `C2_gap_allocation` applied to
Scenario A's concrete counts. -/
theorem C2_witness :
    reconcile_hits_for_energy (some ⟨1000, 100, 700, 150, 50⟩)
        = reconcileSpecPolicy ⟨1000, 100, 700, 150, 50⟩ ∧
    (reconcile_hits_for_energy (some ⟨1000, 100, 700, 150, 50⟩)).2.2
        = max (((1000 : ℕ) : ℤ) - ((100 : ℕ) : ℤ)) 0
            - (((700 : ℕ) : ℤ) + ((150 : ℕ) : ℤ)) :=
  C2_gap_allocation.1 ⟨1000, 100, 700, 150, 50⟩ (by norm_num)

/-! ### Claim C10 (confirmed) -/

/-- C10: reconciliation is monotone and sign-preserving — it only ever adds
hits: the reconciled read-hit and write-hit counts are at least the raw
counts, and both are non-negative. -/
theorem C10_monotone (db : DbCounts) :
    (db.RH : ℤ) ≤ (reconcile_hits_for_energy (some db)).1 ∧
    (db.WH : ℤ) ≤ (reconcile_hits_for_energy (some db)).2.1 ∧
    0 ≤ (reconcile_hits_for_energy (some db)).1 ∧
    0 ≤ (reconcile_hits_for_energy (some db)).2.1 := by
  rcases db with ⟨A, M, RH, WH, coh⟩
  have hrem0 : (0 : ℤ) ≤
      max ((A : ℤ) - (M : ℤ)) 0 - ((RH : ℤ) + (WH : ℤ))
        - min (max ((A : ℤ) - (M : ℤ)) 0 - ((RH : ℤ) + (WH : ℤ))) (coh : ℤ) := by
    omega
  have hps0 : 0 ≤ propSplit (RH : ℤ) ((RH : ℤ) + (WH : ℤ))
      (max ((A : ℤ) - (M : ℤ)) 0 - ((RH : ℤ) + (WH : ℤ))
        - min (max ((A : ℤ) - (M : ℤ)) 0 - ((RH : ℤ) + (WH : ℤ))) (coh : ℤ)) :=
    propSplit_nonneg (Int.natCast_nonneg RH) hrem0
  have hps1 : propSplit (RH : ℤ) ((RH : ℤ) + (WH : ℤ))
      (max ((A : ℤ) - (M : ℤ)) 0 - ((RH : ℤ) + (WH : ℤ))
        - min (max ((A : ℤ) - (M : ℤ)) 0 - ((RH : ℤ) + (WH : ℤ))) (coh : ℤ))
      ≤ max ((A : ℤ) - (M : ℤ)) 0 - ((RH : ℤ) + (WH : ℤ))
        - min (max ((A : ℤ) - (M : ℤ)) 0 - ((RH : ℤ) + (WH : ℤ))) (coh : ℤ) :=
    propSplit_le (by omega) hrem0
  simp only [reconcile_hits_for_energy]
  split_ifs <;> dsimp only <;> refine ⟨?_, ?_, ?_, ?_⟩ <;> omega

/-! ### Claim C3 (code_bug) -/

/-- C3: neither v3's `row_for` nor v4's `energy_row` sorts the reported
total-energy pair, so with the built-in SRAM baseline constants
(`E_write = 0.537 < E_hit = 0.565`), accesses = 1000, misses = 100 and
elapsed time `0.001 s`, the reported "lower" bound exceeds the reported
"upper" bound on both paths.  The sorted pair `(min, max)` — which v4
computes at line 333 and then discards — would satisfy `low ≤ high`. -/
theorem C3_bounds_unsorted :
    (reportedBounds_v3 SRAM_DEFAULT (some (1/1000)) 1000 100).2
      < (reportedBounds_v3 SRAM_DEFAULT (some (1/1000)) 1000 100).1 ∧
    (reportedBounds_v4 SRAM_DEFAULT (some (1/1000)) 1000 100).2
      < (reportedBounds_v4 SRAM_DEFAULT (some (1/1000)) 1000 100).1 ∧
    (sorted_Elo_Ehi_v4 SRAM_DEFAULT (some (1/1000)) 1000 100).1
      ≤ (sorted_Elo_Ehi_v4 SRAM_DEFAULT (some (1/1000)) 1000 100).2 := by
  refine ⟨?_, ?_, ?_⟩
  · norm_num [reportedBounds_v3, energy_bounds, SRAM_DEFAULT]
  · norm_num [reportedBounds_v4, energy_bounds, SRAM_DEFAULT]
  · exact min_le_max

/-! ### Claim C4 (confirmed) -/

/-- C4: the exact dynamic energy is `E_hit×RH + E_write×WH + E_miss×M` and
the exact total energy is that dynamic energy converted to Joules
(`×10⁻⁹`) plus leakage, where leakage is `P_leak × T` for a known elapsed
time and `0` when the elapsed time is unknown. -/
theorem C4_exact_energy (c : EnergyConsts) (T_s : Option ℚ) (RH WH M : ℤ) :
    energy_exact_from_counts c T_s RH WH M
      = (c.E_hit_nJ * RH + c.E_write_nJ * WH + c.E_miss_nJ * M,
          (c.E_hit_nJ * RH + c.E_write_nJ * WH + c.E_miss_nJ * M) * (1/10^9)
            + (match T_s with
                | some t => c.P_leak_W * t
                | none => 0)) := by
  cases T_s <;> simp [energy_exact_from_counts]

/-! ### Claim C6 (confirmed) -/

/-- C6: when the structured statistics store is absent (`db = none`), the
engine still produces a bounds-only record from the coarse report counts:
the exact dynamic/total energy and exact ED²P fields are unknown, the
exact-source tag is empty, the note is `"sqlite_missing"`, and the reported
bounds are exactly the totals `energy_bounds` computes from the coarse
counts. -/
theorem C6_store_missing (c : EnergyConsts) (T_s : Option ℚ) (A_txt M_txt : ℤ) :
    (mkEnergyRecord_v4 c T_s A_txt M_txt none).note = "sqlite_missing" ∧
    (mkEnergyRecord_v4 c T_s A_txt M_txt none).exact_src = "" ∧
    (mkEnergyRecord_v4 c T_s A_txt M_txt none).dyn_exact_nJ = none ∧
    (mkEnergyRecord_v4 c T_s A_txt M_txt none).energy_exact_J = none ∧
    (mkEnergyRecord_v4 c T_s A_txt M_txt none).ed2p_exact = none ∧
    (mkEnergyRecord_v4 c T_s A_txt M_txt none).energy_low_J
      = (energy_bounds c T_s A_txt M_txt).1.1 ∧
    (mkEnergyRecord_v4 c T_s A_txt M_txt none).energy_high_J
      = (energy_bounds c T_s A_txt M_txt).1.2 := by
  refine ⟨rfl, rfl, rfl, rfl, rfl, rfl, rfl⟩

/-! ### Claim C7 (corrected) -/

/-- C7 counterexample: an absent coarse LLC access count is converted to `0`
by `to_int_or_zero`, so the whole output record for "accesses unknown" is
identical to the record for "zero accesses" — the missing count does not
propagate as not-a-number through the energy-bounds computation. -/
theorem C7_cex :
    to_int_or_zero none = 0 ∧
    mkEnergyRecord_v4 SRAM_DEFAULT (some (1/1000)) (to_int_or_zero none) 5 none
      = mkEnergyRecord_v4 SRAM_DEFAULT (some (1/1000)) (to_int_or_zero (some 0)) 5 none := by
  exact ⟨rfl, rfl⟩

/-- C7 (amended): a missing elapsed time does propagate as unknown (ED²P of
an unknown operand is unknown, and leakage falls back to `0` only by the
explicit exception), but the coarse LLC access and miss counts are converted
by `to_int_or_zero`, so a missing count enters the bounds computation as `0`
and is indistinguishable from a true zero count. -/
theorem C7_missing_fields :
    (∀ v : ℤ, to_int_or_zero (some v) = v) ∧
    to_int_or_zero none = 0 ∧
    (∀ E, ed2p E none = none) ∧
    (∀ T, ed2p none T = none) ∧
    (∀ c : EnergyConsts, ∀ acc mis : ℤ, (energy_bounds c none acc mis).2.2 = 0) ∧
    (∀ c : EnergyConsts, ∀ T_s mis, energy_bounds c T_s (to_int_or_zero none) mis
        = energy_bounds c T_s 0 mis) := by
  refine ⟨fun v => rfl, rfl, fun E => ?_, fun T => rfl, fun c acc mis => ?_, fun c T mis => rfl⟩
  · cases E <;> rfl
  · simp [energy_bounds]

/-! ### Claim C8 (confirmed) -/

/-- C8: `ed2p` is `E × T²` on known operands, propagates unknown (NaN) when
either operand is unknown, and is strictly increasing in `T ≥ 0` at fixed
`E > 0`. -/
theorem C8_ed2p :
    (∀ E T : ℚ, ed2p (some E) (some T) = some (E * T ^ 2)) ∧
    (∀ T, ed2p none T = none) ∧
    (∀ E, ed2p E none = none) ∧
    (∀ E T₁ T₂ : ℚ, 0 < E → 0 ≤ T₁ → T₁ < T₂ → E * T₁ ^ 2 < E * T₂ ^ 2) := by
  refine ⟨fun E T => rfl, fun T => rfl, fun E => ?_, fun E T₁ T₂ hE h1 h12 => ?_⟩
  · cases E <;> rfl
  · exact mul_lt_mul_of_pos_left (pow_lt_pow_left₀ h12 h1 (by norm_num)) hE

/-- C8 witness: the `ed2p` formula and strict monotonicity at
`E = 1, T₁ = 0, T₂ = 1`. -/
theorem C8_witness :
    ed2p (some 1) (some 0) = some ((1 : ℚ) * 0 ^ 2) ∧
    (1 : ℚ) * 0 ^ 2 < 1 * 1 ^ 2 :=
  ⟨C8_ed2p.1 1 0, C8_ed2p.2.2.2 1 0 1 (by norm_num) (by norm_num) (by norm_num)⟩

/-! ### Claim C5 (confirmed) -/

/-- C5: constants resolution tries `sim.cfg`, then `sim.info`, then `sim.inf`,
in that order; a file with any one of the four required values missing is
ignored entirely (its scan yields nothing); and the resolved set is either a
complete set scanned from one of the three files (each value converted by the
fixed factor 1000) or the complete built-in default set — never a mix. -/
theorem C5_consts_resolution (r : RunDir) (d : EnergyConsts) :
    (∀ f : FileVals,
        f.e_read_hit_pJ = none ∨ f.e_write_hit_pJ = none ∨
          f.e_miss_pJ = none ∨ f.p_leak_mW = none → scanText f = none) ∧
    (∀ v, r.cfg.bind scanText = some v → resolve_consts r d = v) ∧
    (r.cfg.bind scanText = none →
      ∀ v, r.info.bind scanText = some v → resolve_consts r d = v) ∧
    (r.cfg.bind scanText = none → r.info.bind scanText = none →
      ∀ v, r.inf.bind scanText = some v → resolve_consts r d = v) ∧
    (r.cfg.bind scanText = none → r.info.bind scanText = none →
      r.inf.bind scanText = none → resolve_consts r d = d) ∧
    (resolve_consts r d = d ∨
      ∃ f : FileVals, (r.cfg = some f ∨ r.info = some f ∨ r.inf = some f) ∧
        scanText f = some (resolve_consts r d)) := by
  refine ⟨?_, ?_, ?_, ?_, ?_, ?_⟩
  · intro f hf
    rcases f with ⟨a, b, c2, e⟩
    cases a <;> cases b <;> cases c2 <;> cases e <;> simp_all [scanText]
  · intro v h
    simp [resolve_consts, parse_llc_energy_consts, h]
  · intro h1 v h2
    simp [resolve_consts, parse_llc_energy_consts, h1, h2]
  · intro h1 h2 v h3
    simp [resolve_consts, parse_llc_energy_consts, h1, h2, h3]
  · intro h1 h2 h3
    simp [resolve_consts, parse_llc_energy_consts, h1, h2, h3]
  · cases hc : r.cfg.bind scanText with
    | some v =>
      right
      rcases Option.bind_eq_some.mp hc with ⟨f, hf, hs⟩
      have hr : resolve_consts r d = v := by
        simp [resolve_consts, parse_llc_energy_consts, hc]
      exact ⟨f, Or.inl hf, by rw [hr]; exact hs⟩
    | none =>
      cases hi : r.info.bind scanText with
      | some v =>
        right
        rcases Option.bind_eq_some.mp hi with ⟨f, hf, hs⟩
        have hr : resolve_consts r d = v := by
          simp [resolve_consts, parse_llc_energy_consts, hc, hi]
        exact ⟨f, Or.inr (Or.inl hf), by rw [hr]; exact hs⟩
      | none =>
        cases hn : r.inf.bind scanText with
        | some v =>
          right
          rcases Option.bind_eq_some.mp hn with ⟨f, hf, hs⟩
          have hr : resolve_consts r d = v := by
            simp [resolve_consts, parse_llc_energy_consts, hc, hi, hn]
          exact ⟨f, Or.inr (Or.inr hf), by rw [hr]; exact hs⟩
        | none =>
          left
          simp [resolve_consts, parse_llc_energy_consts, hc, hi, hn]

/-- C5 witness (Scenario D): a `sim.cfg` defining only 3 of the 4 required
constants, with no other info file, resolves to the complete default set. -/
theorem C5_witness :
    resolve_consts ⟨some ⟨some 565, some 537, some 11, none⟩, none, none⟩
        SRAM_DEFAULT = SRAM_DEFAULT := by
  have h := C5_consts_resolution
    ⟨some ⟨some 565, some 537, some 11, none⟩, none, none⟩ SRAM_DEFAULT
  exact h.2.2.2.2.1 rfl rfl rfl

/-! ### Claim C9 (corrected) -/

/-- C9 counterexample: a configured read-hit cost of 0 cycles is treated by
Python falsiness like an absent one, so with `rd_cyc = 0`, `wr_cyc = 1`,
one read hit, one write hit and period 1 the code returns unknown instead of
the claimed weighted-average value `(1×0 + 1×1) × 1 / (1 + 1)`. -/
theorem C9_cex :
    avg_l3_hit_ns (some 0) (some 1) 1 1 (some 1) = none ∧
    avg_l3_hit_ns (some 0) (some 1) 1 1 (some 1)
      ≠ some ((((1 * 0 + 1 * 1 : ℤ) : ℚ) * 1) / ((1 + 1 : ℤ) : ℚ)) := by
  exact ⟨rfl, by simp [avg_l3_hit_ns]⟩

/-- C9 (amended): the average LLC hit latency equals
`(RH × rd_cycles + WH × wr_cycles) × period / (RH + WH)` whenever both cycle
costs are available and nonzero, the reconciled hit total is positive and the
period is positive; it is unknown (not zero) when the hit total is not
positive, when either cycle cost is unavailable *or zero*, or when the period
is unavailable or not positive; the period is elapsed time divided by cycle
count; when only one cost source (llc or llc.next_read) is fully configured
it is used uniformly, when both are configured but the store is absent the
local costs are used, and when both are configured and the store gives the
ROI hit mix each effective cost is the banker's-rounded local/remote
hit-mix-weighted blend. -/
theorem C9_avg_hit_latency :
    (∀ rd wr RH WH : ℤ, ∀ p : ℚ, rd ≠ 0 → wr ≠ 0 → 0 < RH + WH → 0 < p →
        avg_l3_hit_ns (some rd) (some wr) RH WH (some p)
          = some ((((RH * rd + WH * wr : ℤ) : ℚ) * p) / ((RH + WH : ℤ) : ℚ))) ∧
    (∀ rd wr p, ∀ RH WH : ℤ, RH + WH ≤ 0 → avg_l3_hit_ns rd wr RH WH p = none) ∧
    (∀ wr RH WH p, avg_l3_hit_ns none wr RH WH p = none) ∧
    (∀ rd RH WH p, avg_l3_hit_ns rd none RH WH p = none) ∧
    (∀ rd wr RH WH, avg_l3_hit_ns rd wr RH WH none = none) ∧
    (∀ rd wr : ℤ, ∀ RH WH : ℤ, ∀ p : ℚ, p ≤ 0 →
        avg_l3_hit_ns (some rd) (some wr) RH WH (some p) = none) ∧
    (∀ cyc tns : ℕ, 0 < cyc →
        period_ns_from_parsed (some cyc) (some tns) = some ((tns : ℚ) / (cyc : ℚ))) ∧
    (∀ rl wl : ℤ, ∀ db, parse_llc_hit_cycles ⟨some rl, some wl, none, none⟩ db
        = (some rl, some wl)) ∧
    (∀ rn wn : ℤ, ∀ db, parse_llc_hit_cycles ⟨none, none, some rn, some wn⟩ db
        = (some rn, some wn)) ∧
    (∀ rl wl rn wn : ℤ, parse_llc_hit_cycles ⟨some rl, some wl, some rn, some wn⟩ none
        = (some rl, some wl)) ∧
    (∀ rl wl rn wn : ℤ, ∀ m : HitMixDb,
        m.RH_local ≤ m.RH_all → 0 < m.RH_all →
        m.WH_local ≤ m.WH_all → 0 < m.WH_all →
        parse_llc_hit_cycles ⟨some rl, some wl, some rn, some wn⟩ (some m)
          = (some (pyRound (((m.RH_local : ℚ) * rl
                + ((m.RH_all : ℚ) - (m.RH_local : ℚ)) * rn) / (m.RH_all : ℚ))),
             some (pyRound (((m.WH_local : ℚ) * wl
                + ((m.WH_all : ℚ) - (m.WH_local : ℚ)) * wn) / (m.WH_all : ℚ))))) := by
  refine ⟨?_, ?_, ?_, ?_, ?_, ?_, ?_, ?_, ?_, ?_, ?_⟩
  · intro rd wr RH WH p h1 h2 h3 h4
    simp only [avg_l3_hit_ns]
    rw [if_neg]
    push_neg
    exact ⟨h1, h2, by omega, by linarith⟩
  · intro rd wr p RH WH h
    rcases rd with _ | rd <;> rcases wr with _ | wr <;> rcases p with _ | p <;>
      simp [avg_l3_hit_ns, h]
  · intro wr RH WH p
    rfl
  · intro rd RH WH p
    rcases rd with _ | rd <;> rfl
  · intro rd wr RH WH
    rcases rd with _ | rd <;> rcases wr with _ | wr <;> rfl
  · intro rd wr RH WH p h
    simp [avg_l3_hit_ns, h]
  · intro cyc tns h
    simp [period_ns_from_parsed, h]
  · intro rl wl db
    rfl
  · intro rn wn db
    rfl
  · intro rl wl rn wn
    rfl
  · intro rl wl rn wn m hR hRpos hW hWpos
    have hmaxR : max ((m.RH_all : ℤ) - (m.RH_local : ℤ)) 0
        = (m.RH_all : ℤ) - (m.RH_local : ℤ) := max_eq_left (by omega)
    have hmaxW : max ((m.WH_all : ℤ) - (m.WH_local : ℤ)) 0
        = (m.WH_all : ℤ) - (m.WH_local : ℤ) := max_eq_left (by omega)
    simp only [parse_llc_hit_cycles, hmaxR, hmaxW]
    rw [if_neg (by omega), if_neg (by omega)]
    simp only [Prod.mk.injEq, Option.some.injEq]
    constructor
    · congr 1
      push_cast
      ring_nf
    · congr 1
      push_cast
      ring_nf

/-- C9 witness: the weighted-average formula at `rd = 2`, `wr = 3`,
`RH = WH = 1`, period `1`. -/
theorem C9_witness :
    avg_l3_hit_ns (some 2) (some 3) 1 1 (some 1)
      = some ((((1 * 2 + 1 * 3 : ℤ) : ℚ) * 1) / ((1 + 1 : ℤ) : ℚ)) :=
  C9_avg_hit_latency.1 2 3 1 1 1 (by norm_num) (by norm_num) (by norm_num)
    (by norm_num)

end MiniMXE
